import Mathlib

/-!
Shallow embedding of the supervision core of `governator` (src/daemon.go)
and proofs about its registry ordering, startup/shutdown sequencing,
watcher event handling and control-protocol dispatcher.

The `Service` value type, its `Start`/`Stop` methods, the configuration
parser and the wire codec live outside `src/`; where their behaviour
matters they are either taken as abstract parameters (oracles for
`Start`/`Stop` outcomes, an abstract `parse` function, an abstract time
formatter) or modelled from the spec, as indicated on each definition.
-/

namespace Governator

/-- Modelled from the spec: the `Config` value type (its definition is not in
src/). It carries the source file identifier, the service name and the
priority ordering key; the launch parameters are opaque to this core and
omitted. Structural equality on these fields is what
`reflect.DeepEqual(v.Config, cfg)` decides. -/
structure Config where
  File : String
  Name : String
  Priority : Int
deriving DecidableEq, Repr

/-- Modelled from the spec: service states (the `State` constants are not in
src/; they are consecutive constants of an integer-valued type, so the model
uses `Nat` with five named values — any value outside them is invalid). -/
abbrev SState := Nat

def StateStopped : SState := 0

def StateStopping : SState := 1

def StateStarting : SState := 2

def StateStarted : SState := 3

def StateFailed : SState := 4

/-- A state is valid when it is one of the five named constants. -/
def validState (st : SState) : Prop := st < 5

instance (st : SState) : Decidable (validState st) := by
  unfold validState; infer_instance

/-- Modelled from the spec: the `Service` record (not in src/). Mutable
fields used by daemon.go: the configuration snapshot, the state, the restart
counter, the start timestamp (kept abstract as a `Nat` tick; daemon.go only
passes it to the external `formatTime`), the last error text, and whether a
log monitor callback is installed (`logger.monitor != nil`). -/
structure Service where
  Config : Config
  State : SState
  Restarts : Nat
  Started : Nat
  Err : String
  monitor : Bool
deriving DecidableEq, Repr

/-- Modelled from the spec: `newService` constructs a service in `Stopped`
with no monitor and a zero restart count. -/
def newService (c : Config) : Service :=
  { Config := c, State := StateStopped, Restarts := 0, Started := 0
    Err := "", monitor := false }

/-- Modelled from the spec: `Service.Name()` derives the name from the
configuration. -/
def Service.Name (s : Service) : String := s.Config.Name

/-- The comparison used by `servicesByPriority.Less` (daemon.go:29):
`s[i].Config.Priority < s[j].Config.Priority`. `sort.Stable` sorts with
respect to this strict order, which is the same as stably sorting by `≤` on
priorities. -/
def prioLe (a b : Service) : Bool := a.Config.Priority ≤ b.Config.Priority

/-- `servicesByPriority(...).Sort()` (daemon.go:31): a stable sort of the
service list by ascending configured priority. -/
def sortServices (l : List Service) : List Service := l.mergeSort prioLe

/-- The list of configured priorities, in list order. -/
def priorities (l : List Service) : List Int := l.map (·.Config.Priority)

/-- Ascending (weak) sortedness by priority. -/
def sortedByPriority (l : List Service) : Prop :=
  List.Sorted (· ≤ ·) (priorities l)

instance (l : List Service) : Decidable (sortedByPriority l) := by
  unfold sortedByPriority
  infer_instance

/-- Modelled from the spec: the state effect of `Service.Start` (not in
src/): legal only from `Stopped` or `Failed`; on success the state becomes
`Started`, on failure `Failed` with the error recorded; from any other
state the call fails with AlreadyRunning and changes nothing. `ok` and `e`
are the outcome oracle for the call. The start timestamp is managed by the
external `Service` implementation and left unchanged here. -/
def startEffect (ok : Bool) (e : String) (s : Service) : Service :=
  if s.State = StateStopped ∨ s.State = StateFailed then
    if ok then { s with State := StateStarted }
    else { s with State := StateFailed, Err := e }
  else s

/-- Modelled from the spec: the state effect of `Service.Stop` (not in
src/): legal only from `Started`; on success the state returns to
`Stopped`; on failure the state is whatever the failed stop left it in,
modelled here as unchanged. -/
def stopEffect (ok : Bool) (s : Service) : Service :=
  if s.State = StateStarted ∧ ok then { s with State := StateStopped } else s

/-- The boot loop of `daemonMain` (src/daemon.go:327-333): for each parsed
configuration, in the order `ParseConfigs` returned them, construct the
service, place it in the list and invoke `s.Start()` immediately. Returns
the populated (unsorted) list and the start-invocation trace: the
configuration of each service in the order `Start` was called on it.
`ok`/`err` give each start call its outcome, by loop index. -/
def bootLoop (ok : Nat → Bool) (err : Nat → String) :
    Nat → List Config → List Service × List Config
  | _, [] => ([], [])
  | ii, c :: rest =>
    let s := startEffect (ok ii) (err ii) (newService c)
    let r := bootLoop ok err (ii + 1) rest
    (s :: r.1, c :: r.2)

/-- The boot phase of `daemonMain` (src/daemon.go:327-335): run the boot
loop — which starts every service as it is inserted — and only then
stable-sort the list by priority. First component: the registry as left at
`services.Unlock()`; second: the start-invocation trace. -/
def daemonBoot (ok : Nat → Bool) (err : Nat → String) (configs : List Config) :
    List Service × List Config :=
  let r := bootLoop ok err 0 configs
  (sortServices r.1, r.2)

/-- The shutdown stop loop of `daemonMain` (src/daemon.go:356-363):
`for ii := len(services.list) - 1; ii >= 0; ii--` dispatches one stop task
per service. Returns the services in dispatch order. -/
def stopDispatchAux (l : List Service) : Nat → List Service
  | 0 => []
  | ii + 1 =>
    match l.get? ii with
    | some v => v :: stopDispatchAux l ii
    | none => stopDispatchAux l ii

/-- The full stop-dispatch sequence: the countdown starts at
`len(services.list) - 1`. -/
def stopDispatch (l : List Service) : List Service :=
  stopDispatchAux l l.length

/-- Watcher create event (src/daemon.go:69-75): parse the new file,
construct the service, append it, stable-sort, then `s.Start()` it. In the
source the start runs after the sort through the retained pointer `s`; it
is applied before the sort here, which yields the same list because the
sort permutation depends only on priorities, which `Start` never changes.
`cfg` is the result of the external `ParseConfig`; `ok`/`e` the start
outcome. -/
def handleCreate (cfg : Config) (ok : Bool) (e : String) (l : List Service) :
    List Service :=
  sortServices (l ++ [startEffect ok e (newService cfg)])

/-- Watcher delete/rename event (src/daemon.go:76-87): splice out the first
service whose configuration file matches, stopping it first when it was
started (which affects only the removed entry); no match means no change. -/
def handleDelete (name : String) : List Service → List Service
  | [] => []
  | s :: rest =>
    if s.Config.File = name then rest
    else s :: handleDelete name rest

/-- The observable side effects of a modify event: debug log lines, whether
`Stop`/`Start` were invoked, and whether the list was re-sorted. -/
structure ModifyEffects where
  logged : List String
  stopCalled : Bool
  startCalled : Bool
  resorted : Bool
deriving DecidableEq, Repr

def noEffects : ModifyEffects :=
  { logged := [], stopCalled := false, startCalled := false, resorted := false }

/-- Watcher modify event (src/daemon.go:88-108): find the first service
whose configuration file matches; re-parse (`cfg` is the external
`ParseConfig` result); if the parsed configuration is structurally equal
to the current one (`reflect.DeepEqual`), break with no effect at all;
otherwise log, stop a started service, swap the configuration, stable-sort
the whole list, and start it again only when the stop succeeded. As in
`handleCreate`, the trailing `v.Start()` is applied before the sort, which
is equivalent because priorities are untouched by it. The source log text
carries a possessive apostrophe, abbreviated here. -/
def handleModify (name : String) (cfg : Config) (stopOk startOk : Bool)
    (e : String) (l : List Service) : List Service × ModifyEffects :=
  match l.findIdx? (fun v => v.Config.File == name) with
  | none => (l, noEffects)
  | some i =>
    let v := l.getD i (newService cfg)
    if v.Config = cfg then (l, noEffects)
    else
      let doStart := decide (v.State = StateStarted) && stopOk
      let v1 := stopEffect stopOk v
      let v2 := { v1 with Config := cfg }
      let v3 := if doStart then startEffect startOk e v2 else v2
      (sortServices (l.set i v3),
       { logged := ["changed service " ++ v.Name ++ " configuration"]
         stopCalled := decide (v.State = StateStarted)
         startCalled := doStart
         resorted := true })

/-- A watcher filesystem event, with the outcomes of the external calls it
makes (`ParseConfig` results and `Start`/`Stop` success flags). -/
inductive WEvent
  | create (cfg : Config) (startOk : Bool) (e : String)
  | delete (name : String)
  | modify (name : String) (cfg : Config) (stopOk startOk : Bool) (e : String)

/-- One iteration of the watcher loop body (src/daemon.go:67-112), as it
affects the registry list between `services.Lock()` and
`services.Unlock()`. -/
def applyEvent (l : List Service) : WEvent → List Service
  | .create cfg ok e => handleCreate cfg ok e l
  | .delete name => handleDelete name l
  | .modify name cfg so sk e => (handleModify name cfg so sk e l).1

/-- The registry after a sequence of watcher events. -/
def runEvents (l : List Service) (evs : List WEvent) : List Service :=
  evs.foldl applyEvent l

/-- A framed response message tag (`respOk`/`respErr`/`respEnd`; the codec
itself is external). -/
inductive Tag
  | Ok
  | Err
  | End
deriving DecidableEq, Repr

/-- One framed response message. -/
structure Msg where
  tag : Tag
  body : String
deriving DecidableEq, Repr

/-- Modelled from the spec: the full result of `Service.Start` (not in
src/): the returned error and the new service value, consistent with
`startEffect`. -/
def serviceStart (ok : Bool) (e : String) (s : Service) : Option String × Service :=
  (if s.State = StateStopped ∨ s.State = StateFailed then
      (if ok then none else some e)
    else some "already running",
   startEffect ok e s)

/-- Modelled from the spec: the full result of `Service.Stop` (not in
src/): the returned error and the new service value, consistent with
`stopEffect`. -/
def serviceStop (ok : Bool) (e : String) (s : Service) : Option String × Service :=
  (if s.State = StateStarted then (if ok then none else some e)
    else some "not running",
   stopEffect ok s)

/-- `startService` (src/daemon.go:128-135): write the starting line, invoke
`s.Start()`, then report success or the failure detail. Returns the
message stream and the service after the call. -/
def startService (ok : Bool) (e : String) (s : Service) : List Msg × Service :=
  let name := s.Name
  let r := serviceStart ok e s
  match r.1 with
  | some serr =>
      ([⟨.Ok, "starting " ++ name ++ "\n"⟩,
        ⟨.Err, "error starting " ++ name ++ ": " ++ serr ++ "\n"⟩], r.2)
  | none =>
      ([⟨.Ok, "starting " ++ name ++ "\n"⟩,
        ⟨.Ok, "started " ++ name ++ "\n"⟩], r.2)

/-- `stopService` (src/daemon.go:137-144): write the stopping line, invoke
`s.Stop()`; on failure report the error and return false, otherwise report
stopped and return true. -/
def stopService (ok : Bool) (e : String) (s : Service) :
    Bool × List Msg × Service :=
  let name := s.Name
  let r := serviceStop ok e s
  match r.1 with
  | some serr =>
      (false,
       [⟨.Ok, "stopping " ++ name ++ "\n"⟩,
        ⟨.Err, "error stopping " ++ name ++ ": " ++ serr ++ "\n"⟩], r.2)
  | none =>
      (true,
       [⟨.Ok, "stopping " ++ name ++ "\n"⟩,
        ⟨.Ok, "stopped " ++ name ++ "\n"⟩], r.2)

/-- The status cell the `list` command renders for one service
(src/daemon.go:208-225). `fmt` abstracts the external `formatTime`;
`none` is the `default: panic("invalid state")` branch. -/
def statusOf (fmt : Nat → String) (v : Service) : Option String :=
  if v.State = StateStopped then some "STOPPED"
  else if v.State = StateStopping then some "STOPPING"
  else if v.State = StateStarting then some "STARTING"
  else if v.State = StateStarted then
    some (if v.Restarts > 0 then
            "RUNNING since " ++ fmt v.Started ++ " - "
              ++ toString v.Restarts ++ " restarts"
          else "RUNNING since " ++ fmt v.Started)
  else if v.State = StateFailed then some ("FAILED - " ++ v.Err)
  else none

/-- The rows the `list` command renders (src/daemon.go:205-228): one
(name, status) pair per service in registry order; `none` when any status
hits the panic branch. Column alignment by the external text/tabwriter is
not modelled. -/
def listRows (fmt : Nat → String) : List Service → Option (List (String × String))
  | [] => some []
  | v :: rest =>
    match statusOf fmt v, listRows fmt rest with
    | some stat, some rs => some ((v.Name, stat) :: rs)
    | _, _ => none

/-- The body of the single Ok message the `list` command writes: the
header, one row per service, and the trailing blank line
(src/daemon.go:202-231), without tab-stop alignment. -/
def renderRows (rows : List (String × String)) : String :=
  "SERVICE\tSTATUS\t\n"
    ++ String.join (rows.map (fun r => r.1 ++ "\t" ++ r.2 ++ "\t\n"))
    ++ "\n"

/-- The outcome of serving one decoded request. -/
structure ConnResult where
  msgs : List Msg
  logInstalled : Bool
  list : List Service
  stopCalls : List String
  startCalls : List String
deriving DecidableEq, Repr

/-- `serveConn` (src/daemon.go:146-272) after a successful argument decode:
the response message stream for one request, whether a log subscriber was
successfully installed (the streaming path returns at line 263 without
writing `End`; the log lines later delivered through the monitor callback
are produced by `monitorFrame` below, not part of this per-request
stream), the registry as the command leaves it, and the names of services
on which `Stop`/`Start` were invoked. `startOk`/`stopOk`/`es`/`ee` are
outcome oracles for the service calls, `fmt` abstracts `formatTime`,
`help` is the external help text. A `none` result is the
`panic("invalid state")` inside the `list` branch. -/
def serveConn (fmt : Nat → String) (help : String) (startOk stopOk : Bool)
    (es ee : String) (l : List Service) (args : List String) :
    Option ConnResult :=
  match args with
  | [] => some ⟨[⟨.End, ""⟩], false, l, [], []⟩
  | a0 :: _ =>
    let cmd := a0.toLower
    if cmd = "start" ∨ cmd = "stop" ∨ cmd = "restart" ∨ cmd = "log" then
      if args.length ≠ 2 then
        some ⟨[⟨.Err, "command " ++ cmd ++ " requires exactly one argument\n"⟩,
               ⟨.End, ""⟩], false, l, [], []⟩
      else
        let target := args.getD 1 ""
        match l.findIdx? (fun v => v.Name == target) with
        | none =>
          some ⟨[⟨.Err, "no service named " ++ target ++ "\n"⟩,
                 ⟨.End, ""⟩], false, l, [], []⟩
        | some i =>
          let st := l.getD i (newService ⟨"", "", 0⟩)
          let name := st.Name
          if cmd = "start" then
            if st.State = StateStarted then
              some ⟨[⟨.Err, name ++ " is already running\n"⟩, ⟨.End, ""⟩],
                    false, l, [], []⟩
            else
              let r := startService startOk es st
              some ⟨r.1 ++ [⟨.End, ""⟩], false, l.set i r.2, [], [name]⟩
          else if cmd = "stop" then
            if st.State ≠ StateStarted then
              some ⟨[⟨.Err, name ++ " is not running\n"⟩, ⟨.End, ""⟩],
                    false, l, [], []⟩
            else
              let r := stopService stopOk ee st
              some ⟨r.2.1 ++ [⟨.End, ""⟩], false, l.set i r.2.2, [name], []⟩
          else if cmd = "restart" then
            if st.State = StateStarted then
              let r := stopService stopOk ee st
              if r.1 then
                let r2 := startService startOk es r.2.2
                some ⟨r.2.1 ++ r2.1 ++ [⟨.End, ""⟩], false,
                      l.set i r2.2, [name], [name]⟩
              else
                some ⟨r.2.1 ++ [⟨.End, ""⟩], false, l.set i r.2.2, [name], []⟩
            else
              some ⟨[⟨.End, ""⟩], false, l, [], []⟩
          else
            if st.State ≠ StateStarted then
              some ⟨[⟨.Err, name ++ " is not running\n"⟩, ⟨.End, ""⟩],
                    false, l, [], []⟩
            else if st.monitor then
              some ⟨[⟨.Err, name ++ " is already being monitored\n"⟩,
                     ⟨.End, ""⟩], false, l, [], []⟩
            else
              some ⟨[], true, l.set i { st with monitor := false }, [], []⟩
    else if cmd = "list" then
      match listRows fmt l with
      | none => none
      | some rows =>
        some ⟨[⟨.Ok, renderRows rows⟩, ⟨.End, ""⟩], false, l, [], []⟩
    else
      some ⟨[⟨.Err, "unknown command " ++ cmd ++ " - " ++ help ++ "\n"⟩,
             ⟨.End, ""⟩], false, l, [], []⟩

/-- The number of End-tagged messages in a stream. -/
def countEnd (msgs : List Msg) : Nat :=
  (msgs.filter (fun m => m.tag == Tag.End)).length

/-- The log monitor callback installed by the `log` command
(src/daemon.go:242-252): frame a delivered line with its source prefix
and append the external `newLine` unless the line already ends in a
newline. The source reads `b[len(b)-1]`; on an empty line that index is
out of range, modelled as `none` (the Go runtime panics there). -/
def monitorFrame (pfx : String) (b : List Char) : Option String :=
  match b.getLast? with
  | none => none
  | some c =>
      some ("[" ++ pfx ++ "] " ++ String.mk b
              ++ (if c = Char.ofNat 10 then "" else String.mk [Char.ofNat 10]))

/-- Thread identities for the shutdown-interleaving model. -/
inductive Tid
  | watcher
  | serverLoop
  | connHandler
deriving DecidableEq, Repr

/-- Atomic actions in the shutdown-interleaving model. -/
inductive Act
  | mutate
  | sendStopped
  | other
deriving DecidableEq, Repr

/-- Abstraction of the goroutine bodies relevant to shutdown: the watcher
loop handles events (registry mutations) and, on `q.stop`, closes the
watcher and sends `stopped` as its final action (src/daemon.go:115-118);
the dispatch loop hands connections to handler goroutines without touching
the registry itself and sends `stopped` as its final action
(src/daemon.go:297-300); an in-flight connection handler, spawned at
src/daemon.go:302-306 and never joined or signalled, does its decode work
and then mutates the registry or a service field (for instance
`st.Start()` through the `start` command at line 185, or the monitor
removal at line 262) at a point not synchronised with either quit
primitive. -/
def prog : Tid → List Act
  | .watcher => [.mutate, .sendStopped]
  | .serverLoop => [.other, .sendStopped]
  | .connHandler => [.other, .mutate]

/-- An execution of the shutdown phase is any interleaving of the three
thread programs: a sequence of (thread, action) steps whose per-thread
projection is exactly that thread program. -/
def IsInterleaving (exec : List (Tid × Act)) : Prop :=
  ∀ t : Tid, (exec.filter (fun p => p.1 == t)).map Prod.snd = prog t

instance (exec : List (Tid × Act)) : Decidable (IsInterleaving exec) :=
  decidable_of_iff
    ((exec.filter (fun p => p.1 == Tid.watcher)).map Prod.snd = prog .watcher
      ∧ (exec.filter (fun p => p.1 == Tid.serverLoop)).map Prod.snd = prog .serverLoop
      ∧ (exec.filter (fun p => p.1 == Tid.connHandler)).map Prod.snd = prog .connHandler)
    (by
      constructor
      · rintro ⟨h1, h2, h3⟩ t
        cases t <;> assumption
      · intro h
        exact ⟨h .watcher, h .serverLoop, h .connHandler⟩)

/-- A concrete execution: the watcher handles an event and acknowledges its
stop; the dispatch loop acknowledges its stop; the still-running connection
handler then mutates the registry. -/
def postStoppedExec : List (Tid × Act) :=
  [(.watcher, .mutate), (.watcher, .sendStopped), (.serverLoop, .other),
   (.connHandler, .other), (.serverLoop, .sendStopped), (.connHandler, .mutate)]

/-- An atomic step of the shutdown join (src/daemon.go:353-365): task `i`
is the goroutine spawned for the `i`-th dispatched stop — `stop i ok`
marks the completion of its `s.Stop()` call with outcome `ok` (success or
failure), `done i` its `wg.Done()` call — and `ret` is the coordinator
passing `wg.Wait()` and returning. -/
inductive JoinAct
  | stop (i : Nat) (ok : Bool)
  | done (i : Nat)
  | ret
deriving DecidableEq, Repr

/-- Whether a join step belongs to stop task `i`. -/
def JoinAct.isTask (i : Nat) : JoinAct → Bool
  | .stop j _ => j == i
  | .done j => j == i
  | .ret => false

/-- The program of one stop-task goroutine (src/daemon.go:359-362): run
`s.Stop()` to completion — with either outcome, given by the oracle — then
call `wg.Done()`. -/
def stopTaskProg (ok : Nat → Bool) (i : Nat) : List JoinAct :=
  [.stop i (ok i), .done i]

/-- A valid execution of the shutdown join with `n` stop tasks (one per
registered service, `wg.Add(len(services.list))` at src/daemon.go:355): an
action sequence whose projection on each task is that task program, and in
which the coordinator returns exactly once, at a point preceded by every
`wg.Done` — the contract of the external `sync.WaitGroup`, modelled from
the spec: the coordinator blocks in `wg.Wait()` until every task has
called `Done`. -/
def IsJoinExec (n : Nat) (ok : Nat → Bool) (exec : List JoinAct) : Prop :=
  (∀ i, i < n → exec.filter (JoinAct.isTask i) = stopTaskProg ok i)
  ∧ ∃ u v, exec = u ++ JoinAct.ret :: v
      ∧ JoinAct.ret ∉ u ∧ JoinAct.ret ∉ v
      ∧ ∀ i, i < n → JoinAct.done i ∈ u

end Governator

namespace Governator

/-! Support lemmas. -/

theorem prioLe_trans (a b c : Service) :
    prioLe a b = true → prioLe b c = true → prioLe a c = true := by
  simp only [prioLe, decide_eq_true_eq]
  exact le_trans

theorem prioLe_total (a b : Service) : (prioLe a b || prioLe b a) = true := by
  simp only [prioLe, Bool.or_eq_true, decide_eq_true_eq]
  exact le_total _ _

theorem sortServices_sorted (l : List Service) :
    sortedByPriority (sortServices l) := by
  have h := List.sorted_mergeSort prioLe_trans prioLe_total l
  unfold sortedByPriority priorities sortServices
  refine List.Pairwise.map _ ?_ h
  intro a b hab
  simpa [prioLe] using hab

theorem sortServices_perm (l : List Service) :
    (sortServices l).Perm l := List.mergeSort_perm l prioLe

/-- Stability of `sortServices`: two list entries whose priorities compare
`≤` in their list order keep their relative order after sorting. In
particular equal-priority entries keep the relative order they had in the
input list. -/
theorem sortServices_stable (a b : Service) (l : List Service)
    (hle : prioLe a b = true) (hsub : [a, b].Sublist l) :
    [a, b].Sublist (sortServices l) :=
  List.mergeSort_stable_pair prioLe_trans prioLe_total hle hsub

theorem stopDispatchAux_eq_take_reverse (l : List Service) (n : Nat) :
    stopDispatchAux l n = (l.take n).reverse := by
  induction n with
  | zero => simp [stopDispatchAux]
  | succ n ih =>
    rw [List.take_succ, List.reverse_append]
    cases h : l[n]? with
    | none => simp [stopDispatchAux, List.get?_eq_getElem?, h, ih]
    | some v => simp [stopDispatchAux, List.get?_eq_getElem?, h, ih]

/-- The stop loop dispatches in exact reverse registry order. -/
theorem stopDispatch_eq_reverse (l : List Service) :
    stopDispatch l = l.reverse := by
  rw [stopDispatch, stopDispatchAux_eq_take_reverse, List.take_length]

theorem handleDelete_sublist (name : String) (l : List Service) :
    (handleDelete name l).Sublist l := by
  induction l with
  | nil => simp [handleDelete]
  | cons s rest ih =>
    unfold handleDelete
    by_cases h : s.Config.File = name
    · rw [if_pos h]
      exact List.sublist_cons_self s rest
    · rw [if_neg h]
      exact ih.cons₂ s

theorem sortedByPriority_of_sublist {l₁ l₂ : List Service}
    (hsub : l₁.Sublist l₂) (h : sortedByPriority l₂) : sortedByPriority l₁ :=
  List.Pairwise.sublist (List.Sublist.map _ hsub) h

theorem applyEvent_sorted (l : List Service) (ev : WEvent)
    (h : sortedByPriority l) : sortedByPriority (applyEvent l ev) := by
  cases ev with
  | create cfg ok e => exact sortServices_sorted _
  | delete name => exact sortedByPriority_of_sublist (handleDelete_sublist name l) h
  | modify name cfg so sk e =>
    show sortedByPriority (handleModify name cfg so sk e l).1
    unfold handleModify
    cases hf : l.findIdx? (fun v => v.Config.File == name) with
    | none => simpa using h
    | some i =>
      simp only [hf]
      by_cases hc : (l.getD i (newService cfg)).Config = cfg
      · rw [if_pos hc]
        exact h
      · rw [if_neg hc]
        exact sortServices_sorted _

theorem runEvents_sorted (l : List Service) (evs : List WEvent)
    (h : sortedByPriority l) : sortedByPriority (runEvents l evs) := by
  induction evs generalizing l with
  | nil => simpa [runEvents] using h
  | cons ev rest ih =>
    rw [runEvents, List.foldl_cons]
    exact ih _ (applyEvent_sorted l ev h)

theorem countEnd_append (a b : List Msg) :
    countEnd (a ++ b) = countEnd a + countEnd b := by
  simp [countEnd, List.filter_append]

theorem countEnd_startService (ok : Bool) (e : String) (s : Service) :
    countEnd (startService ok e s).1 = 0 := by
  unfold startService
  cases h : (serviceStart ok e s).1 <;> simp [h, countEnd]

theorem countEnd_stopService (ok : Bool) (e : String) (s : Service) :
    countEnd (stopService ok e s).2.1 = 0 := by
  unfold stopService
  cases h : (serviceStop ok e s).1 <;> simp [h, countEnd]

unseal String.mapAux in
theorem toLower_restart : ("restart" : String).toLower = "restart" := rfl

unseal List.merge List.mergeSort in
/-- C1: the claim — and the spec — say `daemonMain` starts every service in
ascending-priority order; the boot loop in fact invokes `Start` in
configuration-parse order, inside the loop that populates the list, and
stable-sorts by priority only afterwards. For the configuration list with
priorities [2, 1] the start-invocation trace has priorities [2, 1] — not
ascending — even though the registry left behind is correctly sorted,
which shows the sort was simply run too late for the starts to respect
it. -/
theorem c1_boot_start_order_not_ascending :
    (daemonBoot (fun _ => true) (fun _ => "")
        [⟨"b.conf", "B", 2⟩, ⟨"a.conf", "A", 1⟩]).2.map Config.Priority = [2, 1]
    ∧ ¬ List.Sorted (· ≤ ·)
        ((daemonBoot (fun _ => true) (fun _ => "")
            [⟨"b.conf", "B", 2⟩, ⟨"a.conf", "A", 1⟩]).2.map Config.Priority)
    ∧ priorities (daemonBoot (fun _ => true) (fun _ => "")
        [⟨"b.conf", "B", 2⟩, ⟨"a.conf", "A", 1⟩]).1 = [1, 2] := by
  decide

/-- C2 counterexample: the claim requires the stop-dispatch sequence to be
strictly descending by priority for every registry contents; with two
services of equal priority — a sorted registry satisfying the invariant —
the dispatched priorities are [1, 1], which is not strictly descending. -/
theorem c2_counterexample :
    sortedByPriority
      [newService ⟨"a.conf", "A", 1⟩, newService ⟨"b.conf", "B", 1⟩]
    ∧ ¬ List.Sorted (· > ·)
        (priorities (stopDispatch
          [newService ⟨"a.conf", "A", 1⟩, newService ⟨"b.conf", "B", 1⟩])) := by
  decide

/-- In every valid execution of the shutdown join, every stop call has
completed — whatever its outcome — before the coordinator returns: each
task program runs `Stop` before `Done`, and the wait-group contract puts
every `Done` before the return. -/
theorem joinExec_stop_before_ret (n : Nat) (ok : Nat → Bool)
    (exec : List JoinAct) (h : IsJoinExec n ok exec) (i : Nat) (hi : i < n) :
    [JoinAct.stop i (ok i), JoinAct.ret].Sublist exec := by
  obtain ⟨hproj, u, v, rfl, hru, hrv, hdone⟩ := h
  have hpi := hproj i hi
  rw [List.filter_append, List.filter_cons] at hpi
  have hretf : JoinAct.isTask i JoinAct.ret = false := rfl
  rw [hretf] at hpi
  simp only [Bool.false_eq_true, if_false] at hpi
  have hd : JoinAct.done i ∈ u.filter (JoinAct.isTask i) := by
    rw [List.mem_filter]
    refine ⟨hdone i hi, ?_⟩
    simp [JoinAct.isTask]
  unfold stopTaskProg at hpi
  rcases hu : u.filter (JoinAct.isTask i) with _ | ⟨a, t⟩
  · rw [hu] at hd
    cases hd
  · rw [hu] at hpi hd
    rw [List.cons_append] at hpi
    injection hpi with ha ht
    subst ha
    rcases t with _ | ⟨b, t2⟩
    · rw [List.mem_singleton] at hd
      exact JoinAct.noConfusion hd
    · rw [List.cons_append] at ht
      injection ht with hb ht2
      subst hb
      have hstopmem : JoinAct.stop i (ok i) ∈ u := by
        have hm : JoinAct.stop i (ok i) ∈ u.filter (JoinAct.isTask i) := by
          rw [hu]
          exact List.mem_cons_self _ _
        exact (List.mem_filter.mp hm).1
      have h1 : [JoinAct.stop i (ok i)].Sublist u :=
        List.singleton_sublist.mpr hstopmem
      have h2 : [JoinAct.ret].Sublist (JoinAct.ret :: v) :=
        List.singleton_sublist.mpr (List.mem_cons_self _ _)
      simpa using List.Sublist.append h1 h2

/-- C2 (amended): after both quit acknowledgments the coordinator
dispatches one stop task per registered service in exact reverse registry
order, so for a sorted registry the dispatched priorities are descending
in the weak sense (non-increasing) — services of equal priority are
dispatched in reverse insertion order, not in a strictly descending
priority sequence — and the coordinator returns only after every stop
task has completed, regardless of individual success or failure: in every
valid execution of the shutdown join with one task per registry entry,
each stop call, with either outcome, precedes the return from
`wg.Wait()`. -/
theorem c2_stop_dispatch_reverse_of_sorted (l : List Service)
    (h : sortedByPriority l) :
    (stopDispatch l = l.reverse
      ∧ List.Sorted (· ≥ ·) (priorities (stopDispatch l)))
    ∧ ∀ (ok : Nat → Bool) (exec : List JoinAct),
        IsJoinExec l.length ok exec →
        ∀ i, i < l.length →
          [JoinAct.stop i (ok i), JoinAct.ret].Sublist exec := by
  refine ⟨⟨stopDispatch_eq_reverse l, ?_⟩, ?_⟩
  · rw [stopDispatch_eq_reverse]
    unfold sortedByPriority priorities at h
    unfold priorities
    rw [List.map_reverse]
    exact (List.pairwise_reverse).2 h
  · intro ok exec hexec i hi
    exact joinExec_stop_before_ret l.length ok exec hexec i hi

/-- Witness for `c2_stop_dispatch_reverse_of_sorted` at a concrete sorted
registry, with the completion conjunct instantiated at a concrete join
execution whose second stop fails. -/
theorem c2_witness :
    ((stopDispatch [newService ⟨"a.conf", "A", 1⟩, newService ⟨"b.conf", "B", 2⟩]
        = [newService ⟨"a.conf", "A", 1⟩, newService ⟨"b.conf", "B", 2⟩].reverse
      ∧ List.Sorted (· ≥ ·) (priorities (stopDispatch
          [newService ⟨"a.conf", "A", 1⟩, newService ⟨"b.conf", "B", 2⟩])))
    ∧ ∀ (ok : Nat → Bool) (exec : List JoinAct),
        IsJoinExec 2 ok exec →
        ∀ i, i < 2 → [JoinAct.stop i (ok i), JoinAct.ret].Sublist exec)
    ∧ IsJoinExec 2 (fun i => decide (i = 0))
        [.stop 0 true, .stop 1 false, .done 1, .done 0, .ret]
    ∧ [JoinAct.stop 1 false, JoinAct.ret].Sublist
        [.stop 0 true, .stop 1 false, .done 1, .done 0, .ret] :=
  have hJ : IsJoinExec 2 (fun i => decide (i = 0))
      [.stop 0 true, .stop 1 false, .done 1, .done 0, .ret] :=
    ⟨by decide,
     [.stop 0 true, .stop 1 false, .done 1, .done 0], [], rfl,
     by decide, by decide, by decide⟩
  ⟨c2_stop_dispatch_reverse_of_sorted
      [newService ⟨"a.conf", "A", 1⟩, newService ⟨"b.conf", "B", 2⟩] (by decide),
   hJ,
   (c2_stop_dispatch_reverse_of_sorted
      [newService ⟨"a.conf", "A", 1⟩, newService ⟨"b.conf", "B", 2⟩]
      (by decide)).2 (fun i => decide (i = 0))
      [.stop 0 true, .stop 1 false, .done 1, .done 0, .ret] hJ 1 (by decide)⟩

unseal List.merge List.mergeSort in
/-- C3 counterexample: create A (priority 5), B (priority 5), C (priority
1) in that order, then modify the file of C so it re-parses at priority 5. The
stable sort keeps C — inserted after A and B — ahead of both, so the
equal-priority services A, B, C end in list order C, A, B, violating
preservation of relative insertion order; the list is still sorted. -/
theorem c3_counterexample :
    (runEvents []
        [.create ⟨"a.conf", "A", 5⟩ true "", .create ⟨"b.conf", "B", 5⟩ true "",
         .create ⟨"c.conf", "C", 1⟩ true "",
         .modify "c.conf" ⟨"c.conf", "C", 5⟩ true true ""]).map Service.Name
      = ["C", "A", "B"]
    ∧ priorities (runEvents []
        [.create ⟨"a.conf", "A", 5⟩ true "", .create ⟨"b.conf", "B", 5⟩ true "",
         .create ⟨"c.conf", "C", 1⟩ true "",
         .modify "c.conf" ⟨"c.conf", "C", 5⟩ true true ""]) = [5, 5, 5] := by
  decide

/-- C3 (amended): for every boot population and every sequence of watcher
create/delete/modify events, the registry is sorted ascending by priority
at each release of the registry lock; moreover each re-sort is stable with
respect to the list it sorts — entries whose priorities compare `≤` in
pre-sort order keep their relative order, so equal-priority services keep
the relative order they had before the mutation. Relative insertion order
of equal-priority services is, however, not preserved across a modify
that changes a priority (see the counterexample). -/
theorem c3_registry_sorted_invariant :
    (∀ (ok : Nat → Bool) (err : Nat → String) (configs : List Config)
        (evs : List WEvent),
        sortedByPriority (runEvents (daemonBoot ok err configs).1 evs))
    ∧ (∀ (a b : Service) (l : List Service), prioLe a b = true →
        [a, b].Sublist l → [a, b].Sublist (sortServices l)) := by
  constructor
  · intro ok err configs evs
    exact runEvents_sorted _ _ (sortServices_sorted _)
  · exact fun a b l => sortServices_stable a b l

/-- Witness for `c3_registry_sorted_invariant`: the sorted invariant after
a concrete boot and event sequence, and stability for a concrete
equal-priority pair. -/
theorem c3_witness :
    sortedByPriority (runEvents
      (daemonBoot (fun _ => true) (fun _ => "") [⟨"a.conf", "A", 3⟩]).1
      [.create ⟨"b.conf", "B", 3⟩ true ""])
    ∧ [newService ⟨"a.conf", "A", 3⟩, newService ⟨"b.conf", "B", 3⟩].Sublist
        (sortServices [newService ⟨"a.conf", "A", 3⟩, newService ⟨"x.conf", "X", 9⟩,
          newService ⟨"b.conf", "B", 3⟩]) :=
  ⟨c3_registry_sorted_invariant.1 (fun _ => true) (fun _ => "")
      [⟨"a.conf", "A", 3⟩] [.create ⟨"b.conf", "B", 3⟩ true ""],
   c3_registry_sorted_invariant.2 _ _ _ (by decide) (by decide)⟩

theorem nat_cases_lt_five (n : Nat) (h : n < 5) :
    n = 0 ∨ n = 1 ∨ n = 2 ∨ n = 3 ∨ n = 4 := by
  omega

theorem countEnd_nil : countEnd [] = 0 := rfl

theorem countEnd_cons_err (b : String) (ms : List Msg) :
    countEnd (⟨Tag.Err, b⟩ :: ms) = countEnd ms := by
  simp [countEnd]

theorem countEnd_cons_ok (b : String) (ms : List Msg) :
    countEnd (⟨Tag.Ok, b⟩ :: ms) = countEnd ms := by
  simp [countEnd]

theorem countEnd_cons_end (b : String) (ms : List Msg) :
    countEnd (⟨Tag.End, b⟩ :: ms) = countEnd ms + 1 := by
  simp [countEnd, List.filter_cons]

theorem stopService_fst (ok : Bool) (e : String) (s : Service) :
    (stopService ok e s).1 = (decide (s.State = StateStarted) && ok) := by
  unfold stopService serviceStop
  by_cases h : s.State = StateStarted <;> cases ok <;> simp [h]

theorem serviceStop_fst_none_iff (ok : Bool) (e : String) (s : Service) :
    (serviceStop ok e s).1 = none ↔ (s.State = StateStarted ∧ ok = true) := by
  unfold serviceStop
  by_cases h : s.State = StateStarted <;> cases ok <;> simp [h]

theorem stopService_failed (e : String) (s : Service)
    (h : s.State = StateStarted) :
    stopService false e s
      = (false,
         [⟨Tag.Ok, "stopping " ++ s.Name ++ "\n"⟩,
          ⟨Tag.Err, "error stopping " ++ s.Name ++ ": " ++ e ++ "\n"⟩],
         (serviceStop false e s).2) := by
  unfold stopService serviceStop
  simp [h]

/-- C5: a modify event whose re-parsed configuration is structurally equal
to the configuration of the first file-matching service is a complete
no-op: the registry list is returned unchanged — so no state,
configuration or restart-count change for any service — and no stop, no
start, no log line and no re-sort occur. -/
theorem c5_modify_equal_config_noop (name : String) (cfg : Config)
    (stopOk startOk : Bool) (e : String) (l : List Service) (i : Nat)
    (hfind : l.findIdx? (fun v => v.Config.File == name) = some i)
    (heq : (l.getD i (newService cfg)).Config = cfg) :
    handleModify name cfg stopOk startOk e l = (l, noEffects) := by
  unfold handleModify
  simp only [hfind]
  rw [if_pos heq]

/-- Witness for `c5_modify_equal_config_noop` at a concrete registry and
event. -/
theorem c5_witness :
    handleModify "a.conf" ⟨"a.conf", "A", 1⟩ true true ""
      [newService ⟨"a.conf", "A", 1⟩]
      = ([newService ⟨"a.conf", "A", 1⟩], noEffects) :=
  c5_modify_equal_config_noop "a.conf" ⟨"a.conf", "A", 1⟩ true true ""
    [newService ⟨"a.conf", "A", 1⟩] 0 (by decide) (by decide)

/-- C7 counterexample: a valid interleaving of the shutdown-phase threads
in which the in-flight connection-handler goroutine mutates the registry
after the server loop has sent its stopped acknowledgment, contradicting
the claim that no control-connection command touches the registry after
that signal. -/
theorem c7_counterexample :
    IsInterleaving postStoppedExec
    ∧ [(Tid.serverLoop, Act.sendStopped), (Tid.connHandler, Act.mutate)].Sublist
        postStoppedExec := by
  decide

/-- C7 (amended): in every interleaving of the shutdown-phase threads, no
action of the watcher loop and no action of the connection-dispatch loop —
in particular no registry mutation by either loop — follows the stopped
acknowledgment of that same loop; in-flight connection-handler goroutines are
not covered by the acknowledgments and may still mutate the registry
afterwards (see the counterexample). -/
theorem c7_no_action_after_own_stopped (exec : List (Tid × Act))
    (h : IsInterleaving exec) (t : Tid)
    (ht : t = Tid.watcher ∨ t = Tid.serverLoop) (a : Act) :
    ¬ [(t, Act.sendStopped), (t, a)].Sublist exec := by
  intro hsub
  have hf := List.Sublist.filter (fun p => p.1 == t) hsub
  have heq : [(t, Act.sendStopped), (t, a)].filter (fun p => p.1 == t)
      = [(t, Act.sendStopped), (t, a)] := by
    simp
  rw [heq] at hf
  have hm := List.Sublist.map Prod.snd hf
  rw [h t] at hm
  rcases ht with rfl | rfl <;> cases a <;> exact absurd hm (by decide)

/-- Witness for `c7_no_action_after_own_stopped` at the concrete
execution. -/
theorem c7_witness :
    ¬ [(Tid.watcher, Act.sendStopped), (Tid.watcher, Act.mutate)].Sublist
        postStoppedExec :=
  c7_no_action_after_own_stopped postStoppedExec (by decide) Tid.watcher
    (Or.inl rfl) Act.mutate

/-- C8: the status rendered by the `list` command is determined by the
service state exactly as specified — STOPPED, STOPPING, STARTING, RUNNING
since the start time with the restart suffix exactly when the restart
count is positive, FAILED with the error — and the panic branch is reached
exactly by the invalid state values, i.e. by no valid state. -/
theorem c8_list_status (fmt : Nat → String) (v : Service) :
    (v.State = StateStopped → statusOf fmt v = some "STOPPED")
    ∧ (v.State = StateStopping → statusOf fmt v = some "STOPPING")
    ∧ (v.State = StateStarting → statusOf fmt v = some "STARTING")
    ∧ (v.State = StateStarted → v.Restarts = 0 →
        statusOf fmt v = some ("RUNNING since " ++ fmt v.Started))
    ∧ (v.State = StateStarted → 0 < v.Restarts →
        statusOf fmt v = some ("RUNNING since " ++ fmt v.Started ++ " - "
          ++ toString v.Restarts ++ " restarts"))
    ∧ (v.State = StateFailed → statusOf fmt v = some ("FAILED - " ++ v.Err))
    ∧ (validState v.State ↔ (statusOf fmt v).isSome) := by
  unfold statusOf validState StateStopped StateStopping StateStarting
    StateStarted StateFailed
  refine ⟨?_, ?_, ?_, ?_, ?_, ?_, ?_⟩
  · intro h
    simp [h]
  · intro h
    simp [h]
  · intro h
    simp [h]
  · intro h hr
    simp [h, hr]
  · intro h hr
    simp [h, hr]
  · intro h
    simp [h]
  · constructor
    · intro hv
      rcases nat_cases_lt_five v.State hv with h | h | h | h | h <;> simp [h]
    · intro hs
      by_cases h0 : v.State = 0
      · rw [h0]
        decide
      by_cases h1 : v.State = 1
      · rw [h1]
        decide
      by_cases h2 : v.State = 2
      · rw [h2]
        decide
      by_cases h3 : v.State = 3
      · rw [h3]
        decide
      by_cases h4 : v.State = 4
      · rw [h4]
        decide
      simp [h0, h1, h2, h3, h4] at hs

/-- Witness for `c8_list_status`: the three concrete rows of the spec
scenario — Started with two restarts, Stopped, and Failed with error
boom. -/
theorem c8_witness :
    statusOf (fun _ => "T")
        { Config := ⟨"a.conf", "A", 1⟩, State := StateStarted, Restarts := 2,
          Started := 7, Err := "", monitor := false }
      = some ("RUNNING since " ++ (fun _ : Nat => "T") 7 ++ " - "
          ++ toString (2 : Nat) ++ " restarts")
    ∧ statusOf (fun _ => "T") (newService ⟨"b.conf", "B", 1⟩) = some "STOPPED"
    ∧ statusOf (fun _ => "T")
        { Config := ⟨"c.conf", "C", 1⟩, State := StateFailed, Restarts := 0,
          Started := 0, Err := "boom", monitor := false }
      = some ("FAILED - " ++ "boom") :=
  ⟨(c8_list_status (fun _ => "T")
      { Config := ⟨"a.conf", "A", 1⟩, State := StateStarted, Restarts := 2,
        Started := 7, Err := "", monitor := false }).2.2.2.2.1 rfl (by decide),
   (c8_list_status (fun _ => "T") (newService ⟨"b.conf", "B", 1⟩)).1 rfl,
   (c8_list_status (fun _ => "T")
      { Config := ⟨"c.conf", "C", 1⟩, State := StateFailed, Restarts := 0,
        Started := 0, Err := "boom", monitor := false }).2.2.2.2.2.1 rfl⟩

/-- C9: the log monitor callback reads the last byte
(`b[len(b)-1]`) of each delivered line: an empty delivered line hits the
out-of-range index — the error branch of the embedded indexing, a runtime
panic — and every non-empty line is framed successfully. -/
theorem c9_monitor_empty_line (pfx : String) :
    monitorFrame pfx [] = none
    ∧ ∀ (c : Char) (b : List Char), (monitorFrame pfx (c :: b)).isSome := by
  constructor
  · rfl
  · intro c b
    unfold monitorFrame
    cases h : (c :: b).getLast? with
    | none => simp at h
    | some d => simp

/-- C6: for every decoded request, unless a log subscription was
successfully installed, the response stream contains exactly one
End-tagged message and it is written after every Ok/Err message (it is the
last message of the stream) — including the error responses for wrong
argument count, unknown name and unknown command, and the empty argument
list; when a log subscription is successfully installed, no End is ever
written. -/
theorem c6_end_marker (fmt : Nat → String) (help : String)
    (startOk stopOk : Bool) (es ee : String) (l : List Service)
    (args : List String) (r : ConnResult)
    (hr : serveConn fmt help startOk stopOk es ee l args = some r) :
    (r.logInstalled = false →
      countEnd r.msgs = 1 ∧ r.msgs.getLast? = some ⟨Tag.End, ""⟩)
    ∧ (r.logInstalled = true → countEnd r.msgs = 0) := by
  unfold serveConn at hr
  cases args with
  | nil =>
    injection hr with h
    subst h
    exact ⟨fun _ => ⟨rfl, rfl⟩, fun h => by cases h⟩
  | cons a0 rest =>
    simp only [] at hr
    repeat' split at hr
    all_goals
      first
      | exact Option.noConfusion hr
      | (injection hr with h
         subst h
         refine ⟨fun hL => ⟨?_, ?_⟩, fun hL => ?_⟩ <;>
           simp_all [countEnd_append, countEnd_startService,
             countEnd_stopService, countEnd_cons_err, countEnd_cons_ok,
             countEnd_cons_end, countEnd_nil, List.getLast?_concat])

/-- Witness for `c6_end_marker`: the empty request writes exactly the end
marker. -/
theorem c6_witness :
    ((false : Bool) = false →
      countEnd [⟨Tag.End, ""⟩] = 1
        ∧ ([(⟨Tag.End, ""⟩ : Msg)]).getLast? = some ⟨Tag.End, ""⟩)
    ∧ ((false : Bool) = true → countEnd [(⟨Tag.End, ""⟩ : Msg)] = 0) :=
  c6_end_marker (fun _ => "") "" true true "" "" [] []
    ⟨[⟨Tag.End, ""⟩], false, [], [], []⟩ rfl

/-- C10: a restart request naming a registered service whose state is not
Started invokes neither stop nor start, writes no Ok and no Err message —
the client receives exactly the end-of-response marker — and leaves the
registry (and so the state of every service) unchanged. -/
theorem c10_restart_not_started_noop (fmt : Nat → String) (help : String)
    (startOk stopOk : Bool) (es ee : String) (l : List Service) (n : String)
    (i : Nat)
    (hfind : l.findIdx? (fun v => v.Name == n) = some i)
    (hstate : (l.getD i (newService ⟨"", "", 0⟩)).State ≠ StateStarted) :
    serveConn fmt help startOk stopOk es ee l ["restart", n]
      = some ⟨[⟨Tag.End, ""⟩], false, l, [], []⟩ := by
  simp only [serveConn, toLower_restart, List.getD_cons_succ,
    List.getD_cons_zero]
  simp only [hfind]
  simp only [List.getD_eq_getElem?_getD] at hstate
  simp [hstate]

/-- C4: in a restart request dispatched by the control protocol, start is
invoked only when a stop was invoked before it and succeeded; when the
stop fails, start is not attempted, the stop failure is surfaced to the
client as an Err message, and the registry keeps the service exactly as
the failed stop left it. -/
theorem c4_restart_stop_gates_start (fmt : Nat → String) (help : String)
    (startOk stopOk : Bool) (es ee : String) (l : List Service) (n : String)
    (i : Nat) (r : ConnResult)
    (hfind : l.findIdx? (fun v => v.Name == n) = some i)
    (hr : serveConn fmt help startOk stopOk es ee l ["restart", n] = some r) :
    (r.startCalls ≠ [] →
      r.stopCalls = [(l.getD i (newService ⟨"", "", 0⟩)).Name]
        ∧ (serviceStop stopOk ee (l.getD i (newService ⟨"", "", 0⟩))).1 = none)
    ∧ ((l.getD i (newService ⟨"", "", 0⟩)).State = StateStarted →
        stopOk = false →
        r.msgs
            = [⟨Tag.Ok, "stopping "
                  ++ (l.getD i (newService ⟨"", "", 0⟩)).Name ++ "\n"⟩,
               ⟨Tag.Err, "error stopping "
                  ++ (l.getD i (newService ⟨"", "", 0⟩)).Name ++ ": " ++ ee ++ "\n"⟩,
               ⟨Tag.End, ""⟩]
          ∧ r.startCalls = []
          ∧ r.list = l.set i
              (serviceStop stopOk ee (l.getD i (newService ⟨"", "", 0⟩))).2) := by
  simp only [serveConn, toLower_restart, List.getD_cons_succ,
    List.getD_cons_zero] at hr
  simp only [hfind] at hr
  simp at hr
  simp only [List.getD_eq_getElem?_getD]
  by_cases hS : (l[i]?.getD (newService ⟨"", "", 0⟩)).State = StateStarted
  · rw [if_pos hS] at hr
    by_cases hOk :
        (stopService stopOk ee (l[i]?.getD (newService ⟨"", "", 0⟩))).1 = true
    · rw [if_pos hOk] at hr
      injection hr with h
      subst h
      constructor
      · intro _
        refine ⟨rfl, ?_⟩
        have h1 := stopService_fst stopOk ee (l[i]?.getD (newService ⟨"", "", 0⟩))
        rw [hOk] at h1
        refine (serviceStop_fst_none_iff stopOk ee _).2 ⟨hS, ?_⟩
        cases stopOk
        · rw [Bool.and_false] at h1
          exact absurd h1.symm (by simp)
        · rfl
      · intro hS2 hOkF
        subst hOkF
        rw [stopService_fst, hS] at hOk
        simp at hOk
    · rw [if_neg hOk] at hr
      injection hr with h
      subst h
      constructor
      · intro hne
        exact absurd rfl hne
      · intro hS2 hOkF
        subst hOkF
        rw [stopService_failed ee _ hS]
        exact ⟨rfl, rfl, rfl⟩
  · rw [if_neg hS] at hr
    injection hr with h
    subst h
    constructor
    · intro hne
      exact absurd rfl hne
    · intro hS2
      exact absurd hS2 hS

unseal String.mapAux in
/-- Witness for `c4_restart_stop_gates_start`: a started service whose
stop fails — the Err message is surfaced, start is never invoked and the
registry keeps the service as the failed stop left it. -/
theorem c4_witness :
    (ConnResult.startCalls
        ⟨[⟨Tag.Ok, "stopping A\n"⟩, ⟨Tag.Err, "error stopping A: boom\n"⟩,
          ⟨Tag.End, ""⟩], false,
         [{ Config := ⟨"a.conf", "A", 1⟩, State := StateStarted, Restarts := 0,
            Started := 0, Err := "", monitor := false }], ["A"], []⟩ ≠ [] →
      ConnResult.stopCalls
        ⟨[⟨Tag.Ok, "stopping A\n"⟩, ⟨Tag.Err, "error stopping A: boom\n"⟩,
          ⟨Tag.End, ""⟩], false,
         [{ Config := ⟨"a.conf", "A", 1⟩, State := StateStarted, Restarts := 0,
            Started := 0, Err := "", monitor := false }], ["A"], []⟩
          = [([{ Config := ⟨"a.conf", "A", 1⟩, State := StateStarted,
                 Restarts := 0, Started := 0, Err := "",
                 monitor := false }].getD 0 (newService ⟨"", "", 0⟩)).Name]
        ∧ (serviceStop false "boom"
            ([{ Config := ⟨"a.conf", "A", 1⟩, State := StateStarted,
                Restarts := 0, Started := 0, Err := "",
                monitor := false }].getD 0 (newService ⟨"", "", 0⟩))).1 = none)
    ∧ (([{ Config := ⟨"a.conf", "A", 1⟩, State := StateStarted, Restarts := 0,
           Started := 0, Err := "",
           monitor := false }].getD 0 (newService ⟨"", "", 0⟩)).State
          = StateStarted →
        false = false →
        ConnResult.msgs
            ⟨[⟨Tag.Ok, "stopping A\n"⟩, ⟨Tag.Err, "error stopping A: boom\n"⟩,
              ⟨Tag.End, ""⟩], false,
             [{ Config := ⟨"a.conf", "A", 1⟩, State := StateStarted,
                Restarts := 0, Started := 0, Err := "", monitor := false }],
             ["A"], []⟩
            = [⟨Tag.Ok, "stopping "
                  ++ ([{ Config := ⟨"a.conf", "A", 1⟩, State := StateStarted,
                         Restarts := 0, Started := 0, Err := "",
                         monitor := false }].getD 0
                        (newService ⟨"", "", 0⟩)).Name ++ "\n"⟩,
               ⟨Tag.Err, "error stopping "
                  ++ ([{ Config := ⟨"a.conf", "A", 1⟩, State := StateStarted,
                         Restarts := 0, Started := 0, Err := "",
                         monitor := false }].getD 0
                        (newService ⟨"", "", 0⟩)).Name ++ ": " ++ "boom" ++ "\n"⟩,
               ⟨Tag.End, ""⟩]
          ∧ ([] : List String) = []
          ∧ [{ Config := ⟨"a.conf", "A", 1⟩, State := StateStarted,
               Restarts := 0, Started := 0, Err := "", monitor := false }]
              = [{ Config := ⟨"a.conf", "A", 1⟩, State := StateStarted,
                   Restarts := 0, Started := 0, Err := "",
                   monitor := false }].set 0
                  (serviceStop false "boom"
                    ([{ Config := ⟨"a.conf", "A", 1⟩, State := StateStarted,
                        Restarts := 0, Started := 0, Err := "",
                        monitor := false }].getD 0 (newService ⟨"", "", 0⟩))).2) :=
  c4_restart_stop_gates_start (fun _ => "T") "h" true false "" "boom"
    [{ Config := ⟨"a.conf", "A", 1⟩, State := StateStarted, Restarts := 0,
       Started := 0, Err := "", monitor := false }] "A" 0
    ⟨[⟨Tag.Ok, "stopping A\n"⟩, ⟨Tag.Err, "error stopping A: boom\n"⟩,
      ⟨Tag.End, ""⟩], false,
     [{ Config := ⟨"a.conf", "A", 1⟩, State := StateStarted, Restarts := 0,
        Started := 0, Err := "", monitor := false }], ["A"], []⟩
    (by decide) (by decide)

/-- Witness for `c10_restart_not_started_noop` at a concrete registry. -/
theorem c10_witness :
    serveConn (fun _ => "T") "h" true true "" ""
      [newService ⟨"a.conf", "A", 1⟩] ["restart", "A"]
      = some ⟨[⟨Tag.End, ""⟩], false, [newService ⟨"a.conf", "A", 1⟩], [], []⟩ :=
  c10_restart_not_started_noop (fun _ => "T") "h" true true "" ""
    [newService ⟨"a.conf", "A", 1⟩] "A" 0 (by decide) (by decide)

end Governator

